import Mathlib

/-!
# The type-tag catalog of `stypes.h`

`src/mzscheme/src/stypes.h` is one anonymous C enumeration.  Every enumerator is a
type tag of the runtime; four of them (`_scheme_values_types_`,
`_scheme_compiled_values_types_`, `_scheme_last_normal_type_`, `_scheme_last_type_`)
are boundary markers.  The block from `_scheme_last_normal_type_` to
`scheme_rt_unmarshal_info` is only compiled under `#ifdef MZTAG_REQUIRED`.

The enumeration is embedded as the list of its enumerators in declaration order,
grouped by the section comments of the header; each enumerator keeps the number
written in its trailing comment, when it has one.
-/

namespace Stypes

/-- The identifiers the header declares, in the order they are written (all of
them, whether or not `MZTAG_REQUIRED` is defined). -/
inductive Ident where
  | scheme_toplevel_type
  | scheme_local_type
  | scheme_local_unbox_type
  | scheme_syntax_type
  | scheme_application_type
  | scheme_application2_type
  | scheme_application3_type
  | scheme_sequence_type
  | scheme_branch_type
  | scheme_unclosed_procedure_type
  | scheme_let_value_type
  | scheme_let_void_type
  | scheme_letrec_type
  | scheme_let_one_type
  | scheme_with_cont_mark_type
  | scheme_quote_syntax_type
  | _scheme_values_types_
  | scheme_compiled_unclosed_procedure_type
  | scheme_compiled_let_value_type
  | scheme_compiled_let_void_type
  | scheme_compiled_syntax_type
  | scheme_compiled_toplevel_type
  | scheme_compiled_quote_syntax_type
  | scheme_quote_compilation_type
  | scheme_variable_type
  | scheme_module_variable_type
  | _scheme_compiled_values_types_
  | scheme_prim_type
  | scheme_closed_prim_type
  | scheme_closure_type
  | scheme_case_closure_type
  | scheme_cont_type
  | scheme_escaping_cont_type
  | scheme_proc_struct_type
  | scheme_native_closure_type
  | scheme_structure_type
  | scheme_char_type
  | scheme_integer_type
  | scheme_bignum_type
  | scheme_rational_type
  | scheme_float_type
  | scheme_double_type
  | scheme_complex_izi_type
  | scheme_complex_type
  | scheme_char_string_type
  | scheme_byte_string_type
  | scheme_unix_path_type
  | scheme_windows_path_type
  | scheme_symbol_type
  | scheme_keyword_type
  | scheme_null_type
  | scheme_pair_type
  | scheme_vector_type
  | scheme_inspector_type
  | scheme_input_port_type
  | scheme_output_port_type
  | scheme_eof_type
  | scheme_true_type
  | scheme_false_type
  | scheme_void_type
  | scheme_syntax_compiler_type
  | scheme_macro_type
  | scheme_box_type
  | scheme_thread_type
  | scheme_stx_offset_type
  | scheme_cont_mark_set_type
  | scheme_sema_type
  | scheme_hash_table_type
  | scheme_cpointer_type
  | scheme_weak_box_type
  | scheme_ephemeron_type
  | scheme_struct_type_type
  | scheme_module_index_type
  | scheme_set_macro_type
  | scheme_listener_type
  | scheme_namespace_type
  | scheme_config_type
  | scheme_stx_type
  | scheme_will_executor_type
  | scheme_custodian_type
  | scheme_random_state_type
  | scheme_regexp_type
  | scheme_bucket_type
  | scheme_bucket_table_type
  | scheme_subprocess_type
  | scheme_compilation_top_type
  | scheme_wrap_chunk_type
  | scheme_eval_waiting_type
  | scheme_tail_call_waiting_type
  | scheme_undefined_type
  | scheme_struct_property_type
  | scheme_multiple_values_type
  | scheme_placeholder_type
  | scheme_case_lambda_sequence_type
  | scheme_begin0_sequence_type
  | scheme_rename_table_type
  | scheme_module_type
  | scheme_svector_type
  | scheme_lazy_macro_type
  | scheme_resolve_prefix_type
  | scheme_security_guard_type
  | scheme_indent_type
  | scheme_udp_type
  | scheme_udp_evt_type
  | scheme_tcp_accept_evt_type
  | scheme_id_macro_type
  | scheme_evt_set_type
  | scheme_wrap_evt_type
  | scheme_handle_evt_type
  | scheme_nack_guard_evt_type
  | scheme_semaphore_repost_type
  | scheme_channel_type
  | scheme_channel_put_type
  | scheme_thread_resume_type
  | scheme_thread_suspend_type
  | scheme_thread_dead_type
  | scheme_poll_evt_type
  | scheme_nack_evt_type
  | scheme_module_registry_type
  | scheme_thread_set_type
  | scheme_string_converter_type
  | scheme_alarm_type
  | scheme_thread_cell_type
  | scheme_channel_syncer_type
  | scheme_special_comment_type
  | scheme_write_evt_type
  | scheme_always_evt_type
  | scheme_never_evt_type
  | scheme_progress_evt_type
  | scheme_certifications_type
  | scheme_already_comp_type
  | scheme_readtable_type
  | scheme_intdef_context_type
  | scheme_lexical_rib_type
  | scheme_thread_cell_values_type
  | scheme_global_ref_type
  | scheme_cont_mark_chain_type
  | scheme_raw_pair_type
  | scheme_prompt_type
  | scheme_prompt_tag_type
  | scheme_delay_syntax_type
  | _scheme_last_normal_type_
  | scheme_rt_weak_array
  | scheme_rt_comp_env
  | scheme_rt_constant_binding
  | scheme_rt_resolve_info
  | scheme_rt_optimize_info
  | scheme_rt_compile_info
  | scheme_rt_cont_mark
  | scheme_rt_saved_stack
  | scheme_rt_reply_item
  | scheme_rt_closure_info
  | scheme_rt_overflow
  | scheme_rt_overflow_jmp
  | scheme_rt_meta_cont
  | scheme_rt_dyn_wind_cell
  | scheme_rt_dyn_wind_info
  | scheme_rt_dyn_wind
  | scheme_rt_dup_check
  | scheme_rt_thread_memory
  | scheme_rt_input_file
  | scheme_rt_input_fd
  | scheme_rt_oskit_console_input
  | scheme_rt_tested_input_file
  | scheme_rt_tested_output_file
  | scheme_rt_indexed_string
  | scheme_rt_output_file
  | scheme_rt_load_handler_data
  | scheme_rt_pipe
  | scheme_rt_beos_process
  | scheme_rt_system_child
  | scheme_rt_tcp
  | scheme_rt_write_data
  | scheme_rt_tcp_select_info
  | scheme_rt_namespace_option
  | scheme_rt_param_data
  | scheme_rt_will
  | scheme_rt_will_registration
  | scheme_rt_struct_proc_info
  | scheme_rt_linker_name
  | scheme_rt_param_map
  | scheme_rt_finalization
  | scheme_rt_finalizations
  | scheme_rt_cpp_object
  | scheme_rt_cpp_array_object
  | scheme_rt_stack_object
  | scheme_rt_preallocated_object
  | scheme_thread_hop_type
  | scheme_rt_srcloc
  | scheme_rt_evt
  | scheme_rt_syncing
  | scheme_rt_comp_prefix
  | scheme_rt_user_input
  | scheme_rt_user_output
  | scheme_rt_compact_port
  | scheme_rt_read_special_dw
  | scheme_rt_regwork
  | scheme_rt_buf_holder
  | scheme_rt_parameterization
  | scheme_rt_print_params
  | scheme_rt_read_params
  | scheme_rt_native_code
  | scheme_rt_native_code_plus_case
  | scheme_rt_jitter_data
  | scheme_rt_module_exports
  | scheme_rt_delay_load_info
  | scheme_rt_marshal_info
  | scheme_rt_unmarshal_info
  | _scheme_last_type_
  deriving DecidableEq, Repr

open Ident

/-- One enumerator of the enumeration: its identifier and the number in its
trailing comment `/* n */` (`none` when the comment is absent or is text). -/
structure Enumerator where
  name : Ident
  note : Option Nat
  deriving DecidableEq, Repr

/-- Enumerators under the heading `compiled object types: (internal)` (stypes.h lines 5-20). -/
def compiledObjectTypes : List Enumerator :=
  [Enumerator.mk scheme_toplevel_type (some 0),
   Enumerator.mk scheme_local_type (some 1),
   Enumerator.mk scheme_local_unbox_type (some 2),
   Enumerator.mk scheme_syntax_type (some 3),
   Enumerator.mk scheme_application_type (some 4),
   Enumerator.mk scheme_application2_type (some 5),
   Enumerator.mk scheme_application3_type (some 6),
   Enumerator.mk scheme_sequence_type (some 7),
   Enumerator.mk scheme_branch_type (some 8),
   Enumerator.mk scheme_unclosed_procedure_type (some 9),
   Enumerator.mk scheme_let_value_type (some 10),
   Enumerator.mk scheme_let_void_type (some 11),
   Enumerator.mk scheme_letrec_type (some 12),
   Enumerator.mk scheme_let_one_type (some 13),
   Enumerator.mk scheme_with_cont_mark_type (some 14),
   Enumerator.mk scheme_quote_syntax_type (some 15)]

/-- Enumerators under the heading `intermediate compiled:` (stypes.h lines 25-30). -/
def intermediateCompiled : List Enumerator :=
  [Enumerator.mk scheme_compiled_unclosed_procedure_type (some 17),
   Enumerator.mk scheme_compiled_let_value_type (some 18),
   Enumerator.mk scheme_compiled_let_void_type (some 19),
   Enumerator.mk scheme_compiled_syntax_type (some 20),
   Enumerator.mk scheme_compiled_toplevel_type (some 21),
   Enumerator.mk scheme_compiled_quote_syntax_type (some 22)]

/-- Enumerators under the heading `Registered in prefix table:` (stypes.h lines 35-36). -/
def registeredInPrefixTable : List Enumerator :=
  [Enumerator.mk scheme_variable_type (some 24),
   Enumerator.mk scheme_module_variable_type (none)]

/-- Enumerators under the heading `procedure types` (stypes.h lines 41-48). -/
def procedureTypes : List Enumerator :=
  [Enumerator.mk scheme_prim_type (some 27),
   Enumerator.mk scheme_closed_prim_type (some 28),
   Enumerator.mk scheme_closure_type (some 29),
   Enumerator.mk scheme_case_closure_type (some 30),
   Enumerator.mk scheme_cont_type (some 31),
   Enumerator.mk scheme_escaping_cont_type (some 32),
   Enumerator.mk scheme_proc_struct_type (some 33),
   Enumerator.mk scheme_native_closure_type (some 34)]

/-- Enumerators under the heading `structure types (overlaps with procs)` (stypes.h line 51). -/
def structureTypes : List Enumerator :=
  [Enumerator.mk scheme_structure_type (some 35)]

/-- Enumerators under the heading `basic types` (stypes.h lines 54-158). -/
def basicTypes : List Enumerator :=
  [Enumerator.mk scheme_char_type (some 36),
   Enumerator.mk scheme_integer_type (some 37),
   Enumerator.mk scheme_bignum_type (some 38),
   Enumerator.mk scheme_rational_type (some 39),
   Enumerator.mk scheme_float_type (some 40),
   Enumerator.mk scheme_double_type (some 41),
   Enumerator.mk scheme_complex_izi_type (some 42),
   Enumerator.mk scheme_complex_type (some 43),
   Enumerator.mk scheme_char_string_type (some 44),
   Enumerator.mk scheme_byte_string_type (some 45),
   Enumerator.mk scheme_unix_path_type (some 46),
   Enumerator.mk scheme_windows_path_type (some 47),
   Enumerator.mk scheme_symbol_type (some 48),
   Enumerator.mk scheme_keyword_type (some 49),
   Enumerator.mk scheme_null_type (some 50),
   Enumerator.mk scheme_pair_type (some 51),
   Enumerator.mk scheme_vector_type (some 52),
   Enumerator.mk scheme_inspector_type (some 53),
   Enumerator.mk scheme_input_port_type (some 54),
   Enumerator.mk scheme_output_port_type (some 55),
   Enumerator.mk scheme_eof_type (some 56),
   Enumerator.mk scheme_true_type (some 57),
   Enumerator.mk scheme_false_type (some 58),
   Enumerator.mk scheme_void_type (some 59),
   Enumerator.mk scheme_syntax_compiler_type (some 60),
   Enumerator.mk scheme_macro_type (some 61),
   Enumerator.mk scheme_box_type (some 62),
   Enumerator.mk scheme_thread_type (some 63),
   Enumerator.mk scheme_stx_offset_type (some 64),
   Enumerator.mk scheme_cont_mark_set_type (some 65),
   Enumerator.mk scheme_sema_type (some 66),
   Enumerator.mk scheme_hash_table_type (some 67),
   Enumerator.mk scheme_cpointer_type (some 68),
   Enumerator.mk scheme_weak_box_type (some 69),
   Enumerator.mk scheme_ephemeron_type (some 70),
   Enumerator.mk scheme_struct_type_type (some 71),
   Enumerator.mk scheme_module_index_type (some 72),
   Enumerator.mk scheme_set_macro_type (some 73),
   Enumerator.mk scheme_listener_type (some 74),
   Enumerator.mk scheme_namespace_type (some 75),
   Enumerator.mk scheme_config_type (some 76),
   Enumerator.mk scheme_stx_type (some 77),
   Enumerator.mk scheme_will_executor_type (some 78),
   Enumerator.mk scheme_custodian_type (some 79),
   Enumerator.mk scheme_random_state_type (some 80),
   Enumerator.mk scheme_regexp_type (some 81),
   Enumerator.mk scheme_bucket_type (some 82),
   Enumerator.mk scheme_bucket_table_type (some 83),
   Enumerator.mk scheme_subprocess_type (some 84),
   Enumerator.mk scheme_compilation_top_type (some 85),
   Enumerator.mk scheme_wrap_chunk_type (some 86),
   Enumerator.mk scheme_eval_waiting_type (some 87),
   Enumerator.mk scheme_tail_call_waiting_type (some 88),
   Enumerator.mk scheme_undefined_type (some 89),
   Enumerator.mk scheme_struct_property_type (some 90),
   Enumerator.mk scheme_multiple_values_type (some 91),
   Enumerator.mk scheme_placeholder_type (some 92),
   Enumerator.mk scheme_case_lambda_sequence_type (some 93),
   Enumerator.mk scheme_begin0_sequence_type (some 94),
   Enumerator.mk scheme_rename_table_type (some 95),
   Enumerator.mk scheme_module_type (some 96),
   Enumerator.mk scheme_svector_type (some 97),
   Enumerator.mk scheme_lazy_macro_type (some 98),
   Enumerator.mk scheme_resolve_prefix_type (some 99),
   Enumerator.mk scheme_security_guard_type (some 100),
   Enumerator.mk scheme_indent_type (some 101),
   Enumerator.mk scheme_udp_type (some 102),
   Enumerator.mk scheme_udp_evt_type (some 103),
   Enumerator.mk scheme_tcp_accept_evt_type (some 104),
   Enumerator.mk scheme_id_macro_type (some 105),
   Enumerator.mk scheme_evt_set_type (some 106),
   Enumerator.mk scheme_wrap_evt_type (some 107),
   Enumerator.mk scheme_handle_evt_type (some 108),
   Enumerator.mk scheme_nack_guard_evt_type (some 109),
   Enumerator.mk scheme_semaphore_repost_type (some 110),
   Enumerator.mk scheme_channel_type (some 111),
   Enumerator.mk scheme_channel_put_type (some 112),
   Enumerator.mk scheme_thread_resume_type (some 113),
   Enumerator.mk scheme_thread_suspend_type (some 114),
   Enumerator.mk scheme_thread_dead_type (some 115),
   Enumerator.mk scheme_poll_evt_type (some 116),
   Enumerator.mk scheme_nack_evt_type (some 117),
   Enumerator.mk scheme_module_registry_type (some 118),
   Enumerator.mk scheme_thread_set_type (some 119),
   Enumerator.mk scheme_string_converter_type (some 120),
   Enumerator.mk scheme_alarm_type (some 121),
   Enumerator.mk scheme_thread_cell_type (some 122),
   Enumerator.mk scheme_channel_syncer_type (some 123),
   Enumerator.mk scheme_special_comment_type (some 124),
   Enumerator.mk scheme_write_evt_type (some 125),
   Enumerator.mk scheme_always_evt_type (some 126),
   Enumerator.mk scheme_never_evt_type (some 127),
   Enumerator.mk scheme_progress_evt_type (some 128),
   Enumerator.mk scheme_certifications_type (some 129),
   Enumerator.mk scheme_already_comp_type (some 130),
   Enumerator.mk scheme_readtable_type (some 131),
   Enumerator.mk scheme_intdef_context_type (some 132),
   Enumerator.mk scheme_lexical_rib_type (some 133),
   Enumerator.mk scheme_thread_cell_values_type (some 134),
   Enumerator.mk scheme_global_ref_type (some 135),
   Enumerator.mk scheme_cont_mark_chain_type (some 136),
   Enumerator.mk scheme_raw_pair_type (some 137),
   Enumerator.mk scheme_prompt_type (some 138),
   Enumerator.mk scheme_prompt_tag_type (some 139),
   Enumerator.mk scheme_delay_syntax_type (some 140)]

/-- Enumerators scheme_rt_weak_array .. scheme_rt_unmarshal_info, which the source
declares only under `#ifdef MZTAG_REQUIRED` (stypes.h lines 163-229). -/
def rtTypes : List Enumerator :=
  [Enumerator.mk scheme_rt_weak_array (some 142),
   Enumerator.mk scheme_rt_comp_env (some 143),
   Enumerator.mk scheme_rt_constant_binding (some 144),
   Enumerator.mk scheme_rt_resolve_info (some 145),
   Enumerator.mk scheme_rt_optimize_info (some 146),
   Enumerator.mk scheme_rt_compile_info (some 147),
   Enumerator.mk scheme_rt_cont_mark (some 148),
   Enumerator.mk scheme_rt_saved_stack (some 149),
   Enumerator.mk scheme_rt_reply_item (some 150),
   Enumerator.mk scheme_rt_closure_info (some 151),
   Enumerator.mk scheme_rt_overflow (some 152),
   Enumerator.mk scheme_rt_overflow_jmp (some 153),
   Enumerator.mk scheme_rt_meta_cont (some 154),
   Enumerator.mk scheme_rt_dyn_wind_cell (some 155),
   Enumerator.mk scheme_rt_dyn_wind_info (some 156),
   Enumerator.mk scheme_rt_dyn_wind (some 157),
   Enumerator.mk scheme_rt_dup_check (some 158),
   Enumerator.mk scheme_rt_thread_memory (some 159),
   Enumerator.mk scheme_rt_input_file (some 160),
   Enumerator.mk scheme_rt_input_fd (some 161),
   Enumerator.mk scheme_rt_oskit_console_input (some 162),
   Enumerator.mk scheme_rt_tested_input_file (some 163),
   Enumerator.mk scheme_rt_tested_output_file (some 164),
   Enumerator.mk scheme_rt_indexed_string (some 165),
   Enumerator.mk scheme_rt_output_file (some 166),
   Enumerator.mk scheme_rt_load_handler_data (some 167),
   Enumerator.mk scheme_rt_pipe (some 168),
   Enumerator.mk scheme_rt_beos_process (some 169),
   Enumerator.mk scheme_rt_system_child (some 170),
   Enumerator.mk scheme_rt_tcp (some 171),
   Enumerator.mk scheme_rt_write_data (some 172),
   Enumerator.mk scheme_rt_tcp_select_info (some 173),
   Enumerator.mk scheme_rt_namespace_option (some 174),
   Enumerator.mk scheme_rt_param_data (some 175),
   Enumerator.mk scheme_rt_will (some 176),
   Enumerator.mk scheme_rt_will_registration (some 177),
   Enumerator.mk scheme_rt_struct_proc_info (some 178),
   Enumerator.mk scheme_rt_linker_name (some 179),
   Enumerator.mk scheme_rt_param_map (some 180),
   Enumerator.mk scheme_rt_finalization (some 181),
   Enumerator.mk scheme_rt_finalizations (some 182),
   Enumerator.mk scheme_rt_cpp_object (some 183),
   Enumerator.mk scheme_rt_cpp_array_object (some 184),
   Enumerator.mk scheme_rt_stack_object (some 185),
   Enumerator.mk scheme_rt_preallocated_object (some 186),
   Enumerator.mk scheme_thread_hop_type (some 187),
   Enumerator.mk scheme_rt_srcloc (some 188),
   Enumerator.mk scheme_rt_evt (some 189),
   Enumerator.mk scheme_rt_syncing (some 190),
   Enumerator.mk scheme_rt_comp_prefix (some 191),
   Enumerator.mk scheme_rt_user_input (some 192),
   Enumerator.mk scheme_rt_user_output (some 193),
   Enumerator.mk scheme_rt_compact_port (some 194),
   Enumerator.mk scheme_rt_read_special_dw (some 195),
   Enumerator.mk scheme_rt_regwork (some 196),
   Enumerator.mk scheme_rt_buf_holder (some 197),
   Enumerator.mk scheme_rt_parameterization (some 198),
   Enumerator.mk scheme_rt_print_params (some 199),
   Enumerator.mk scheme_rt_read_params (some 200),
   Enumerator.mk scheme_rt_native_code (some 201),
   Enumerator.mk scheme_rt_native_code_plus_case (some 202),
   Enumerator.mk scheme_rt_jitter_data (some 203),
   Enumerator.mk scheme_rt_module_exports (some 204),
   Enumerator.mk scheme_rt_delay_load_info (some 205),
   Enumerator.mk scheme_rt_marshal_info (some 206),
   Enumerator.mk scheme_rt_unmarshal_info (some 207)]

/-- The block the header compiles only under `#ifdef MZTAG_REQUIRED`
(stypes.h lines 160-230): `_scheme_last_normal_type_` followed by the
`scheme_rt_` tags. -/
def mztagRequiredBlock : List Enumerator :=
  Enumerator.mk _scheme_last_normal_type_ (some 141) :: rtTypes

/-- The enumerators of stypes.h after preprocessing, in declaration order.
`MZTAG_REQUIRED` says whether that preprocessor symbol is defined. -/
def stypes (MZTAG_REQUIRED : Bool) : List Enumerator :=
  compiledObjectTypes
    ++ [Enumerator.mk _scheme_values_types_ none]
    ++ intermediateCompiled
    ++ [Enumerator.mk scheme_quote_compilation_type none]
    ++ registeredInPrefixTable
    ++ [Enumerator.mk _scheme_compiled_values_types_ (some 26)]
    ++ procedureTypes
    ++ structureTypes
    ++ basicTypes
    ++ (if MZTAG_REQUIRED then mztagRequiredBlock else [])
    ++ [Enumerator.mk _scheme_last_type_ none]

/-- Values of a C enumeration without initialisers: the first enumerator gets
`next`, every following one the value of its predecessor plus one. -/
def enumValues : List Enumerator → Nat → List (Ident × Nat)
  | [], _ => []
  | e :: es, next => (e.name, next) :: enumValues es (next + 1)

/-- The enumeration constants of stypes.h with their values (the first is 0). -/
def enumTable (MZTAG_REQUIRED : Bool) : List (Ident × Nat) :=
  enumValues (stypes MZTAG_REQUIRED) 0

/-- Value of the enumeration constant `name`, its TagId; `none` when the
identifier is not declared in this configuration. -/
def tagIdOf (MZTAG_REQUIRED : Bool) (name : Ident) : Option Nat :=
  (enumTable MZTAG_REQUIRED).lookup name

/-- Identifier of the enumerator whose value is `tag`, if there is one. -/
def kindAt (MZTAG_REQUIRED : Bool) (tag : Nat) : Option Ident :=
  ((enumTable MZTAG_REQUIRED).find? (fun d => d.2 == tag)).map Prod.fst

/-- The four boundary markers of the enumeration. -/
def sentinelNames : List Ident :=
  [_scheme_values_types_, _scheme_compiled_values_types_,
   _scheme_last_normal_type_, _scheme_last_type_]

/-- An enumerator that is a type tag of real objects, not a boundary marker. -/
def isRealKind (name : Ident) : Bool := !sentinelNames.contains name

/-- Modelled from the spec: the coarse categories of section 3 (the header has no
classifier; it only fixes the positions the categories are cut at). -/
inductive Category where
  | CompiledSyntaxForm
  | RegisteredValueOrSlot
  | RuntimeKind
  | InternalOnly
  deriving DecidableEq, Repr

/-- Modelled from the spec: the runtime faults of section 7. -/
inductive TagError where
  | UnknownTag
  | InvalidKind
  deriving DecidableEq, Repr

/-- Modelled from the spec: the build-time faults of section 7. -/
inductive BuildError where
  | DuplicateKind
  | AlreadyFrozen
  deriving DecidableEq, Repr

/-- Modelled from the spec: the four sentinel values a built TagSpace records
(section 3). -/
structure TagSpace where
  B_values : Nat
  B_compiled_values : Nat
  B_last_normal : Nat
  B_last : Nat
  deriving DecidableEq, Repr

deriving instance DecidableEq for Except

/-- Does some identifier occur twice in the list. -/
def hasDuplicate : List Ident → Bool
  | [] => false
  | n :: ns => ns.contains n || hasDuplicate ns

/-- Modelled from the spec: the recording step of `Build` (section 4.1, "recording
catalog positions at declared transition points").  `B_values` is the position of
`_scheme_values_types_`, `B_compiled_values` that of
`_scheme_compiled_values_types_`, `B_last_normal` the position immediately after
`scheme_delay_syntax_type`, `B_last` that of `_scheme_last_type_`. -/
def recordSentinel (ts : TagSpace) (d : Ident × Nat) : TagSpace :=
  if d.1 = _scheme_values_types_ then { ts with B_values := d.2 }
  else if d.1 = _scheme_compiled_values_types_ then { ts with B_compiled_values := d.2 }
  else if d.1 = scheme_delay_syntax_type then { ts with B_last_normal := d.2 + 1 }
  else if d.1 = _scheme_last_type_ then { ts with B_last := d.2 }
  else ts

/-- Modelled from the spec: `Build` of section 4.1, which the header leaves to the C
compiler.  The identifier of a declaration is its enumeration value; a catalog
naming a kind twice is rejected with `DuplicateKind`. -/
def Build (catalog : List Enumerator) : Except BuildError TagSpace :=
  if hasDuplicate (catalog.map Enumerator.name) then .error .DuplicateKind
  else .ok ((enumValues catalog 0).foldl recordSentinel ⟨0, 0, 0, 0⟩)

/-- Modelled from the spec: `Classify` of section 4.2, half-open range comparisons
of the tag against the four sentinels, in the order of the categories of section 3;
a tag in none of the ranges is an `UnknownTag`. -/
def Classify (ts : TagSpace) (tag : Int) : Except TagError Category :=
  if 0 ≤ tag ∧ tag < ts.B_values then .ok .CompiledSyntaxForm
  else if (ts.B_values : Int) ≤ tag ∧ tag < ts.B_compiled_values then .ok .RegisteredValueOrSlot
  else if (ts.B_compiled_values : Int) ≤ tag ∧ tag < ts.B_last_normal then .ok .RuntimeKind
  else if (ts.B_last_normal : Int) ≤ tag ∧ tag < ts.B_last then .ok .InternalOnly
  else .error .UnknownTag

/-- Category of the enumerator `name`: its TagId classified (`none` when the
identifier is not declared in this configuration). -/
def categoryOf (MZTAG_REQUIRED : Bool) (ts : TagSpace) (name : Ident) :
    Option (Except TagError Category) :=
  (tagIdOf MZTAG_REQUIRED name).map (fun (t : Nat) => Classify ts (t : Int))

/-- Identifiers declared before `name`, in declaration order. -/
def kindsBefore (MZTAG_REQUIRED : Bool) (name : Ident) : List Ident :=
  ((stypes MZTAG_REQUIRED).map Enumerator.name).takeWhile (fun n => n != name)

/-- Identifiers declared strictly after `lo` and strictly before `hi`, in
declaration order. -/
def declaredBetween (MZTAG_REQUIRED : Bool) (lo hi : Ident) : List Ident :=
  ((((stypes MZTAG_REQUIRED).map Enumerator.name).dropWhile (fun n => n != lo)).drop 1).takeWhile
    (fun n => n != hi)

/-- Identifiers declared from `first` through `last`, both included, in
declaration order. -/
def declaredFromThrough (MZTAG_REQUIRED : Bool) (first last : Ident) : List Ident :=
  (((stypes MZTAG_REQUIRED).map Enumerator.name).dropWhile (fun n => n != first)).takeWhile
    (fun n => n != last) ++ [last]

/-- Is the list of numbers strictly increasing. -/
def strictlyIncreasing : List Nat → Bool
  | a :: b :: rest => decide (a < b) && strictlyIncreasing (b :: rest)
  | _ => true

/-- The real kinds (boundary markers left out) whose TagId classifies as `c`. -/
def realKindsIn (MZTAG_REQUIRED : Bool) (ts : TagSpace) (c : Category) : List Ident :=
  ((enumTable MZTAG_REQUIRED).filter
    (fun d => isRealKind d.1 && decide (Classify ts (d.2 : Int) = .ok c))).map Prod.fst

/-- Modelled from the spec: the order in which section 3 lists the categories,
`CompiledSyntaxForm < RegisteredValueOrSlot < RuntimeKind < InternalOnly`. -/
def Category.rank : Category → Nat
  | .CompiledSyntaxForm => 0
  | .RegisteredValueOrSlot => 1
  | .RuntimeKind => 2
  | .InternalOnly => 3

/-- Modelled from the spec: a valid TagId of section 3, `0 ≤ tag < B_last`
(`IsValid` of section 6; the header declares no such test). -/
def IsValid (ts : TagSpace) (tag : Int) : Bool :=
  decide (0 ≤ tag ∧ tag < ts.B_last)

/-- Modelled from the spec: the ObjectHeader of section 3, holding exactly the
tag it was stamped with. -/
structure Header where
  tag : Int
  deriving DecidableEq, Repr

/-- Modelled from the spec: `Tag()` of section 4.3, the read of the stamped tag. -/
def Header.Tag (h : Header) : Int := h.tag

/-- Modelled from the spec: `Stamp` (`AllocateHeader`) of section 4.3; fails with
`InvalidKind` when the tag is not in `[0, B_last)`. -/
def Stamp (ts : TagSpace) (tag : Int) : Except TagError Header :=
  if 0 ≤ tag ∧ tag < ts.B_last then .ok ⟨tag⟩ else .error .InvalidKind

/-- Modelled from the spec: the DispatchTable of section 4.4 as far as `Lookup`
needs it: the TagSpace it was built from and one entry per tag.  The entries
themselves (describe, equalsAndHash, scanDescriptor, finalizer) are left abstract. -/
structure DispatchTable (Entry : Type) where
  space : TagSpace
  entry : Nat → Entry

/-- Modelled from the spec: `Lookup` of section 4.4; fails with `UnknownTag` for
tags outside `[0, B_last)` and yields the entry of the tag otherwise. -/
def Lookup {Entry : Type} (table : DispatchTable Entry) (tag : Int) :
    Except TagError Entry :=
  if 0 ≤ tag ∧ tag < table.space.B_last then .ok (table.entry tag.toNat)
  else .error .UnknownTag

/-! ## General facts about enumeration values -/

theorem enumValues_ge {l : List Enumerator} {n : Nat} {p : Ident × Nat}
    (h : p ∈ enumValues l n) : n ≤ p.2 := by
  induction l generalizing n with
  | nil => simp [enumValues] at h
  | cons e es ih =>
    simp only [enumValues, List.mem_cons] at h
    rcases h with h | h
    · subst h; exact Nat.le_refl _
    · exact Nat.le_of_succ_le (ih h)

theorem enumValues_name_of_value {l : List Enumerator} {n : Nat} {a b : Ident} {t : Nat}
    (ha : (a, t) ∈ enumValues l n) (hb : (b, t) ∈ enumValues l n) : a = b := by
  induction l generalizing n with
  | nil => simp [enumValues] at ha
  | cons e es ih =>
    simp only [enumValues, List.mem_cons, Prod.mk.injEq] at ha hb
    rcases ha with ⟨ha, hat⟩ | ha <;> rcases hb with ⟨hb, hbt⟩ | hb
    · rw [ha, hb]
    · have := enumValues_ge hb; simp only at this; omega
    · have := enumValues_ge ha; simp only at this; omega
    · exact ih ha hb

theorem mem_of_lookup {l : List (Ident × Nat)} {a : Ident} {t : Nat}
    (h : l.lookup a = some t) : (a, t) ∈ l := by
  induction l with
  | nil => simp at h
  | cons p ps ih =>
    obtain ⟨k, v⟩ := p
    by_cases hk : a = k
    · subst hk
      simp [List.lookup] at h
      simp [h]
    · have hne : (a == k) = false := by simpa using hk
      simp only [List.lookup, hne] at h
      exact List.mem_cons_of_mem _ (ih h)

theorem enumValues_map_fst (l : List Enumerator) (n : Nat) :
    (enumValues l n).map Prod.fst = l.map Enumerator.name := by
  induction l generalizing n with
  | nil => rfl
  | cons e es ih => simp [enumValues, ih]

theorem enumValues_map_snd (l : List Enumerator) (n : Nat) :
    (enumValues l n).map Prod.snd = List.range' n l.length := by
  induction l generalizing n with
  | nil => rfl
  | cons e es ih => simp [enumValues, ih, List.range'_succ]

theorem lookup_enumValues_get (l : List Enumerator) (hnd : (l.map Enumerator.name).Nodup)
    (n k : Nat) (hk : k < l.length) :
    (enumValues l n).lookup (l.get ⟨k, hk⟩).name = some (n + k) := by
  induction l generalizing n k with
  | nil => simp at hk
  | cons e es ih =>
    rw [List.map_cons, List.nodup_cons] at hnd
    cases k with
    | zero => simp [enumValues, List.lookup]
    | succ k =>
      have hk2 : k < es.length := by simpa using hk
      have hne : ((es.get ⟨k, hk2⟩).name == e.name) = false := by
        simp only [beq_eq_false_iff_ne, ne_eq]
        intro h
        exact hnd.1 (h ▸ List.mem_map_of_mem _ (List.get_mem es k hk2))
      simp only [enumValues, List.get, List.lookup, hne]
      rw [ih hnd.2 (n + 1) k hk2]
      congr 1
      omega

theorem find_enumValues_get (l : List Enumerator) (n k : Nat) (hk : k < l.length) :
    (enumValues l n).find? (fun d => d.2 == n + k) = some ((l.get ⟨k, hk⟩).name, n + k) := by
  induction l generalizing n k with
  | nil => simp at hk
  | cons e es ih =>
    cases k with
    | zero => simp [enumValues]
    | succ k =>
      have hk2 : k < es.length := by simpa using hk
      have hne : (n == n + (k + 1)) = false := by simp
      simp only [enumValues, List.find?, hne, List.get]
      have := ih (n + 1) k hk2
      rw [show n + 1 + k = n + (k + 1) by omega] at this
      exact this

theorem hasDuplicate_eq_false_iff (l : List Ident) : hasDuplicate l = false ↔ l.Nodup := by
  induction l with
  | nil => simp [hasDuplicate]
  | cons a as ih => simp [hasDuplicate, ih]

theorem nodup_of_strictlyIncreasing {l : List Nat} (h : strictlyIncreasing l = true) :
    l.Nodup := by
  have hc : l.Chain' (fun a b => a < b) := by
    induction l with
    | nil => exact List.chain'_nil
    | cons a as ih =>
      cases as with
      | nil => exact List.chain'_singleton a
      | cons b rest =>
        simp only [strictlyIncreasing, Bool.and_eq_true, decide_eq_true_eq] at h
        exact List.chain'_cons.2 ⟨h.1, ih h.2⟩
  exact (List.chain'_iff_pairwise.1 hc).imp (fun hab => Nat.ne_of_lt hab)

/-! ## Evaluation of the catalog -/

theorem stypes_names_nodup (MZTAG_REQUIRED : Bool) :
    ((stypes MZTAG_REQUIRED).map Enumerator.name).Nodup := by
  have h : strictlyIncreasing
      (((stypes MZTAG_REQUIRED).map Enumerator.name).map Ident.toCtorIdx) = true := by
    cases MZTAG_REQUIRED <;> decide!
  exact List.Nodup.of_map _ (nodup_of_strictlyIncreasing h)

theorem Build_of_nodup (catalog : List Enumerator)
    (h : (catalog.map Enumerator.name).Nodup) :
    Build catalog = .ok ((enumValues catalog 0).foldl recordSentinel ⟨0, 0, 0, 0⟩) := by
  simp [Build, (hasDuplicate_eq_false_iff _).2 h]

theorem build_stypes_true :
    Build (stypes true) = .ok ⟨16, 26, 141, 208⟩ := by
  rw [Build_of_nodup _ (stypes_names_nodup true)]
  exact congrArg _ (by decide!)

theorem build_stypes_false :
    Build (stypes false) = .ok ⟨16, 26, 141, 141⟩ := by
  rw [Build_of_nodup _ (stypes_names_nodup false)]
  exact congrArg _ (by decide!)

theorem tagIdOf_get (MZTAG_REQUIRED : Bool) (k : Nat)
    (h : k < (stypes MZTAG_REQUIRED).length) :
    tagIdOf MZTAG_REQUIRED ((stypes MZTAG_REQUIRED).get ⟨k, h⟩).name = some k := by
  have := lookup_enumValues_get _ (stypes_names_nodup MZTAG_REQUIRED) 0 k h
  simpa [tagIdOf, enumTable] using this

theorem kindAt_get (MZTAG_REQUIRED : Bool) (k : Nat)
    (h : k < (stypes MZTAG_REQUIRED).length) :
    kindAt MZTAG_REQUIRED k = some ((stypes MZTAG_REQUIRED).get ⟨k, h⟩).name := by
  have := find_enumValues_get (stypes MZTAG_REQUIRED) 0 k h
  simp only [Nat.zero_add] at this
  simp [kindAt, enumTable, this]

/-- C1: in both build configurations the boundary markers of stypes.h are ordered:
`0 ≤ B_values < B_compiled_values < B_last_normal ≤ B_last`, where `B_values` and
`B_compiled_values` are the values of `_scheme_values_types_` and
`_scheme_compiled_values_types_`, `B_last_normal` is the position immediately after
`scheme_delay_syntax_type` (the value of `_scheme_last_normal_type_` where that is
declared) and `B_last` is the value of `_scheme_last_type_`; these are the four
values `Build` records. -/
theorem C1_sentinel_ordering (MZTAG_REQUIRED : Bool) :
    ∃ v cv ln l : Nat,
      tagIdOf MZTAG_REQUIRED _scheme_values_types_ = some v ∧
      tagIdOf MZTAG_REQUIRED _scheme_compiled_values_types_ = some cv ∧
      (tagIdOf MZTAG_REQUIRED scheme_delay_syntax_type).map (· + 1) = some ln ∧
      tagIdOf MZTAG_REQUIRED _scheme_last_normal_type_
        = (if MZTAG_REQUIRED then some ln else none) ∧
      tagIdOf MZTAG_REQUIRED _scheme_last_type_ = some l ∧
      Build (stypes MZTAG_REQUIRED) = .ok ⟨v, cv, ln, l⟩ ∧
      (0 : Int) ≤ v ∧ v < cv ∧ cv < ln ∧ ln ≤ l := by
  cases MZTAG_REQUIRED
  · exact ⟨16, 26, 141, 141, by decide!, by decide!, by decide!, by decide!, by decide!,
      build_stypes_false, by decide⟩
  · exact ⟨16, 26, 141, 208, by decide!, by decide!, by decide!, by decide!, by decide!,
      build_stypes_true, by decide⟩

/-- C2: for the TagSpace built from stypes.h (either configuration) and every
integer tag: `Classify` succeeds exactly when `0 ≤ tag < B_last`, and this is
exactly when the tag lies in one and only one of the four half-open ranges; each
category is returned exactly on its range; `Classify` fails with `UnknownTag`
exactly when `tag < 0` or `tag ≥ B_last`. -/
theorem C2_classify_total (MZTAG_REQUIRED : Bool) (tag : Int) :
    ∃ ts, Build (stypes MZTAG_REQUIRED) = .ok ts ∧
      ((∃ c, Classify ts tag = .ok c) ↔ (0 ≤ tag ∧ tag < ts.B_last)) ∧
      (Classify ts tag = .error .UnknownTag ↔ (tag < 0 ∨ (ts.B_last : Int) ≤ tag)) ∧
      (Classify ts tag = .ok .CompiledSyntaxForm ↔ (0 ≤ tag ∧ tag < ts.B_values)) ∧
      (Classify ts tag = .ok .RegisteredValueOrSlot ↔
        ((ts.B_values : Int) ≤ tag ∧ tag < ts.B_compiled_values)) ∧
      (Classify ts tag = .ok .RuntimeKind ↔
        ((ts.B_compiled_values : Int) ≤ tag ∧ tag < ts.B_last_normal)) ∧
      (Classify ts tag = .ok .InternalOnly ↔
        ((ts.B_last_normal : Int) ≤ tag ∧ tag < ts.B_last)) ∧
      ((0 ≤ tag ∧ tag < ts.B_last) ↔
        (((0 ≤ tag ∧ tag < ts.B_values)
            ∧ ¬ ((ts.B_values : Int) ≤ tag ∧ tag < ts.B_compiled_values)
            ∧ ¬ ((ts.B_compiled_values : Int) ≤ tag ∧ tag < ts.B_last_normal)
            ∧ ¬ ((ts.B_last_normal : Int) ≤ tag ∧ tag < ts.B_last))
          ∨ (¬ (0 ≤ tag ∧ tag < ts.B_values)
            ∧ ((ts.B_values : Int) ≤ tag ∧ tag < ts.B_compiled_values)
            ∧ ¬ ((ts.B_compiled_values : Int) ≤ tag ∧ tag < ts.B_last_normal)
            ∧ ¬ ((ts.B_last_normal : Int) ≤ tag ∧ tag < ts.B_last))
          ∨ (¬ (0 ≤ tag ∧ tag < ts.B_values)
            ∧ ¬ ((ts.B_values : Int) ≤ tag ∧ tag < ts.B_compiled_values)
            ∧ ((ts.B_compiled_values : Int) ≤ tag ∧ tag < ts.B_last_normal)
            ∧ ¬ ((ts.B_last_normal : Int) ≤ tag ∧ tag < ts.B_last))
          ∨ (¬ (0 ≤ tag ∧ tag < ts.B_values)
            ∧ ¬ ((ts.B_values : Int) ≤ tag ∧ tag < ts.B_compiled_values)
            ∧ ¬ ((ts.B_compiled_values : Int) ≤ tag ∧ tag < ts.B_last_normal)
            ∧ ((ts.B_last_normal : Int) ≤ tag ∧ tag < ts.B_last)))) := by
  have key : ∀ ts : TagSpace, ts.B_values < ts.B_compiled_values →
      ts.B_compiled_values < ts.B_last_normal → ts.B_last_normal ≤ ts.B_last →
      ((∃ c, Classify ts tag = .ok c) ↔ (0 ≤ tag ∧ tag < ts.B_last)) ∧
      (Classify ts tag = .error .UnknownTag ↔ (tag < 0 ∨ (ts.B_last : Int) ≤ tag)) ∧
      (Classify ts tag = .ok .CompiledSyntaxForm ↔ (0 ≤ tag ∧ tag < ts.B_values)) ∧
      (Classify ts tag = .ok .RegisteredValueOrSlot ↔
        ((ts.B_values : Int) ≤ tag ∧ tag < ts.B_compiled_values)) ∧
      (Classify ts tag = .ok .RuntimeKind ↔
        ((ts.B_compiled_values : Int) ≤ tag ∧ tag < ts.B_last_normal)) ∧
      (Classify ts tag = .ok .InternalOnly ↔
        ((ts.B_last_normal : Int) ≤ tag ∧ tag < ts.B_last)) := by
    intro ts h1 h2 h3
    simp only [Classify]
    split_ifs with a b c d
    all_goals simp
    all_goals omega
  cases MZTAG_REQUIRED
  · refine ⟨_, build_stypes_false, ?_⟩
    obtain ⟨k1, k2, k3, k4, k5, k6⟩ := key ⟨16, 26, 141, 141⟩ (by decide) (by decide) (by decide)
    refine ⟨k1, k2, k3, k4, k5, k6, ?_⟩
    simp only
    omega
  · refine ⟨_, build_stypes_true, ?_⟩
    obtain ⟨k1, k2, k3, k4, k5, k6⟩ := key ⟨16, 26, 141, 208⟩ (by decide) (by decide) (by decide)
    refine ⟨k1, k2, k3, k4, k5, k6, ?_⟩
    simp only
    omega

/-- C3: in stypes.h (either configuration) no two kinds share a TagId: two
declarations at distinct positions have different names and different TagIds; the
names of the catalog are pairwise distinct, so `Build` does not fail with
`DuplicateKind`; the enumeration values are pairwise distinct, and two identifiers
with the same TagId are the same identifier. -/
theorem C3_unique_tag_ids (MZTAG_REQUIRED : Bool) (i j : Nat)
    (hi : i < (stypes MZTAG_REQUIRED).length) (hj : j < (stypes MZTAG_REQUIRED).length)
    (hij : i ≠ j) :
    ((stypes MZTAG_REQUIRED).get ⟨i, hi⟩).name ≠ ((stypes MZTAG_REQUIRED).get ⟨j, hj⟩).name ∧
    tagIdOf MZTAG_REQUIRED ((stypes MZTAG_REQUIRED).get ⟨i, hi⟩).name
      ≠ tagIdOf MZTAG_REQUIRED ((stypes MZTAG_REQUIRED).get ⟨j, hj⟩).name ∧
    ((stypes MZTAG_REQUIRED).map Enumerator.name).Nodup ∧
    ((enumTable MZTAG_REQUIRED).map Prod.snd).Nodup ∧
    (∀ a b : Ident, ∀ t : Nat,
      tagIdOf MZTAG_REQUIRED a = some t → tagIdOf MZTAG_REQUIRED b = some t → a = b) ∧
    Build (stypes MZTAG_REQUIRED) ≠ .error .DuplicateKind := by
  have hnd := stypes_names_nodup MZTAG_REQUIRED
  refine ⟨?_, ?_, hnd, ?_, ?_, ?_⟩
  · intro h
    have hi2 : i < ((stypes MZTAG_REQUIRED).map Enumerator.name).length := by simpa using hi
    have hj2 : j < ((stypes MZTAG_REQUIRED).map Enumerator.name).length := by simpa using hj
    have := (List.Nodup.get_inj_iff hnd (i := ⟨i, hi2⟩) (j := ⟨j, hj2⟩)).1 (by simpa using h)
    exact hij (by simpa using this)
  · rw [tagIdOf_get, tagIdOf_get]
    simpa using hij
  · rw [enumTable, enumValues_map_snd]
    exact List.nodup_range' _ _
  · intro a b t ha hb
    exact enumValues_name_of_value (mem_of_lookup ha) (mem_of_lookup hb)
  · cases MZTAG_REQUIRED
    · rw [build_stypes_false]; exact fun h => by cases h
    · rw [build_stypes_true]; exact fun h => by cases h

/-- C3, instance: in the catalog with `MZTAG_REQUIRED` the declarations at positions
4 and 44 differ in name and in TagId. -/
theorem C3_unique_tag_ids_witness :
    (4 < (stypes true).length ∧ 44 < (stypes true).length ∧ 4 ≠ 44) ∧
    tagIdOf true scheme_application_type ≠ tagIdOf true scheme_char_string_type :=
  ⟨by decide!, (C3_unique_tag_ids true 4 44 (by decide!) (by decide!) (by decide)).2.1⟩

/-- C4: TagIds follow declaration order from 0 without gaps: the enumerator at
position `k` (sentinels counted) has TagId `k`, the enumeration values are
`0, 1, ..., length - 1`, `scheme_toplevel_type` is 0, and with `MZTAG_REQUIRED`
every enumerator whose comment carries a number has that number as its TagId. -/
theorem C4_declaration_order (MZTAG_REQUIRED : Bool) (k : Nat)
    (hk : k < (stypes MZTAG_REQUIRED).length) :
    tagIdOf MZTAG_REQUIRED ((stypes MZTAG_REQUIRED).get ⟨k, hk⟩).name = some k ∧
    kindAt MZTAG_REQUIRED k = some ((stypes MZTAG_REQUIRED).get ⟨k, hk⟩).name ∧
    (enumTable MZTAG_REQUIRED).map Prod.snd = List.range (stypes MZTAG_REQUIRED).length ∧
    tagIdOf MZTAG_REQUIRED scheme_toplevel_type = some 0 ∧
    (∀ e ∈ stypes true, ∀ n, e.note = some n → tagIdOf true e.name = some n) ∧
    tagIdOf true scheme_quote_syntax_type = some 15 ∧
    tagIdOf true scheme_variable_type = some 24 ∧
    tagIdOf true _scheme_compiled_values_types_ = some 26 ∧
    tagIdOf true scheme_char_string_type = some 44 ∧
    tagIdOf true scheme_delay_syntax_type = some 140 ∧
    tagIdOf true _scheme_last_normal_type_ = some 141 ∧
    tagIdOf true scheme_rt_unmarshal_info = some 207 := by
  refine ⟨tagIdOf_get MZTAG_REQUIRED k hk, kindAt_get MZTAG_REQUIRED k hk, ?_, ?_, ?_,
    by decide!⟩
  · rw [enumTable, enumValues_map_snd, List.range_eq_range']
  · cases MZTAG_REQUIRED <;> decide!
  · have h : ∀ (i : Nat) (hi : i < (stypes true).length),
        ((stypes true).get ⟨i, hi⟩).note = none ∨
        ((stypes true).get ⟨i, hi⟩).note = some i := by decide!
    intro e he n hn
    obtain ⟨⟨i, hi⟩, rfl⟩ := List.mem_iff_get.1 he
    rw [tagIdOf_get true i hi]
    rcases h i hi with h | h
    · rw [hn] at h; cases h
    · rw [hn] at h; exact h.symm

/-- C4, instance: the enumerator at position 44 of the catalog with
`MZTAG_REQUIRED` is `scheme_char_string_type` and has TagId 44. -/
theorem C4_declaration_order_witness :
    44 < (stypes true).length ∧
    tagIdOf true ((stypes true).get ⟨44, by decide!⟩).name = some 44 ∧
    kindAt true 44 = some ((stypes true).get ⟨44, by decide!⟩).name :=
  ⟨by decide!, (C4_declaration_order true 44 (by decide!)).1,
    (C4_declaration_order true 44 (by decide!)).2.1⟩

/-- C5: classification agrees with the section headings (either configuration):
the kinds under "compiled object types" (`scheme_toplevel_type` ..
`scheme_quote_syntax_type`) classify as `CompiledSyntaxForm`; the kinds declared
between `_scheme_values_types_` and `_scheme_compiled_values_types_` (intermediate
compiled, `scheme_quote_compilation_type`, registered in prefix table) classify as
`RegisteredValueOrSlot`; the kinds from `scheme_prim_type` through
`scheme_delay_syntax_type` classify as `RuntimeKind`; and a real kind classified
into one of these categories is one of the kinds listed for it. -/
theorem C5_sections_classify (MZTAG_REQUIRED : Bool) :
    ∃ ts, Build (stypes MZTAG_REQUIRED) = .ok ts ∧
      declaredFromThrough MZTAG_REQUIRED scheme_toplevel_type scheme_quote_syntax_type
        = compiledObjectTypes.map Enumerator.name ∧
      declaredBetween MZTAG_REQUIRED _scheme_values_types_ _scheme_compiled_values_types_
        = (intermediateCompiled ++ [Enumerator.mk scheme_quote_compilation_type none]
            ++ registeredInPrefixTable).map Enumerator.name ∧
      declaredFromThrough MZTAG_REQUIRED scheme_prim_type scheme_delay_syntax_type
        = (procedureTypes ++ structureTypes ++ basicTypes).map Enumerator.name ∧
      (∀ e ∈ compiledObjectTypes,
        categoryOf MZTAG_REQUIRED ts e.name = some (.ok .CompiledSyntaxForm)) ∧
      (∀ e ∈ intermediateCompiled ++ [Enumerator.mk scheme_quote_compilation_type none]
            ++ registeredInPrefixTable,
        categoryOf MZTAG_REQUIRED ts e.name = some (.ok .RegisteredValueOrSlot)) ∧
      (∀ e ∈ procedureTypes ++ structureTypes ++ basicTypes,
        categoryOf MZTAG_REQUIRED ts e.name = some (.ok .RuntimeKind)) ∧
      (∀ e ∈ stypes MZTAG_REQUIRED, isRealKind e.name = true →
        (categoryOf MZTAG_REQUIRED ts e.name = some (.ok .CompiledSyntaxForm) →
          e ∈ compiledObjectTypes) ∧
        (categoryOf MZTAG_REQUIRED ts e.name = some (.ok .RegisteredValueOrSlot) →
          e ∈ intermediateCompiled ++ [Enumerator.mk scheme_quote_compilation_type none]
            ++ registeredInPrefixTable) ∧
        (categoryOf MZTAG_REQUIRED ts e.name = some (.ok .RuntimeKind) →
          e ∈ procedureTypes ++ structureTypes ++ basicTypes)) := by
  cases MZTAG_REQUIRED
  · exact ⟨_, build_stypes_false, by decide!⟩
  · exact ⟨_, build_stypes_true, by decide!⟩

/-- C6: in both configurations TagId 4 is `scheme_application_type` and classifies
as `CompiledSyntaxForm`; TagId 44 is `scheme_char_string_type` and classifies as
`RuntimeKind`. -/
theorem C6_scenario_tags (MZTAG_REQUIRED : Bool) :
    ∃ ts, Build (stypes MZTAG_REQUIRED) = .ok ts ∧
      kindAt MZTAG_REQUIRED 4 = some scheme_application_type ∧
      tagIdOf MZTAG_REQUIRED scheme_application_type = some 4 ∧
      Classify ts 4 = .ok .CompiledSyntaxForm ∧
      kindAt MZTAG_REQUIRED 44 = some scheme_char_string_type ∧
      tagIdOf MZTAG_REQUIRED scheme_char_string_type = some 44 ∧
      Classify ts 44 = .ok .RuntimeKind := by
  cases MZTAG_REQUIRED
  · exact ⟨_, build_stypes_false, by decide!⟩
  · exact ⟨_, build_stypes_true, by decide!⟩

/-- C7, as stated, fails: the number of kinds declared before
`_scheme_values_types_` is not 17, and `B_values` is not 17. -/
theorem C7_seventeen_kinds_counterexample :
    (kindsBefore true _scheme_values_types_).length ≠ 17 ∧
    tagIdOf true _scheme_values_types_ ≠ some 17 := by decide!

/-- C7, amended: exactly 16 kinds, those under "compiled object types", are
declared before `_scheme_values_types_`; the sentinel is the 17th enumerator and has
TagId 16, so 16 TagIds lie in `[0, B_values)`. -/
theorem C7_sixteen_kinds (MZTAG_REQUIRED : Bool) :
    kindsBefore MZTAG_REQUIRED _scheme_values_types_
      = compiledObjectTypes.map Enumerator.name ∧
    (kindsBefore MZTAG_REQUIRED _scheme_values_types_).length = 16 ∧
    tagIdOf MZTAG_REQUIRED _scheme_values_types_ = some 16 ∧
    kindAt MZTAG_REQUIRED 16 = some _scheme_values_types_ ∧
    ((enumTable MZTAG_REQUIRED).filter (fun d => d.2 < 16)).length = 16 := by
  cases MZTAG_REQUIRED <;> decide!

/-- C8: without `MZTAG_REQUIRED`, `_scheme_last_type_` takes the position directly
after `scheme_delay_syntax_type`, so `B_last = B_last_normal`; neither
`_scheme_last_normal_type_` nor any `scheme_rt_` tag is declared; and `Classify`
returns `InternalOnly` for no integer tag. -/
theorem C8_no_internal_tags (tag : Int) :
    ∃ ts, Build (stypes false) = .ok ts ∧
      ts.B_last = ts.B_last_normal ∧
      tagIdOf false _scheme_last_type_
        = (tagIdOf false scheme_delay_syntax_type).map (· + 1) ∧
      tagIdOf false _scheme_last_type_ = some ts.B_last ∧
      tagIdOf false _scheme_last_normal_type_ = none ∧
      (∀ e ∈ rtTypes, tagIdOf false e.name = none) ∧
      Classify ts tag ≠ .ok .InternalOnly := by
  refine ⟨_, build_stypes_false, by decide!, by decide!, by decide!, by decide!,
    by decide!, ?_⟩
  simp only [Classify]
  split_ifs with a b c d
  all_goals first
    | (intro h; cases h; done)
    | omega

/-- C9, as stated, fails: with `MZTAG_REQUIRED` the value of `_scheme_last_type_`
is not the value of `_scheme_last_normal_type_` plus 66. -/
theorem C9_last_plus_66_counterexample :
    ¬ ∃ ln l : Nat, tagIdOf true _scheme_last_normal_type_ = some ln ∧
        tagIdOf true _scheme_last_type_ = some l ∧ l = ln + 66 := by
  rintro ⟨ln, l, h1, h2, h3⟩
  have e1 : tagIdOf true _scheme_last_normal_type_ = some 141 := by decide!
  have e2 : tagIdOf true _scheme_last_type_ = some 208 := by decide!
  rw [e1] at h1
  rw [e2] at h2
  cases h1
  cases h2
  omega

/-- C9, amended: with `MZTAG_REQUIRED` the appended internal catalog
`scheme_rt_weak_array` .. `scheme_rt_unmarshal_info` has 66 kinds, and
`B_last = B_last_normal + 67`, because `_scheme_last_normal_type_` itself occupies
TagId 141, the internal kinds occupy 142 .. 207 and `_scheme_last_type_` is 208. -/
theorem C9_last_plus_67 :
    rtTypes.length = 66 ∧
    declaredFromThrough true scheme_rt_weak_array scheme_rt_unmarshal_info
      = rtTypes.map Enumerator.name ∧
    declaredBetween true _scheme_last_normal_type_ _scheme_last_type_
      = rtTypes.map Enumerator.name ∧
    tagIdOf true _scheme_last_normal_type_ = some 141 ∧
    tagIdOf true scheme_rt_weak_array = some 142 ∧
    tagIdOf true scheme_rt_unmarshal_info = some 207 ∧
    tagIdOf true _scheme_last_type_ = some 208 ∧
    (∃ ln l : Nat, tagIdOf true _scheme_last_normal_type_ = some ln ∧
        tagIdOf true _scheme_last_type_ = some l ∧ l = ln + 67) := by
  refine ⟨by decide!, by decide!, by decide!, by decide!, by decide!, by decide!,
    by decide!, 141, 208, by decide!, by decide!, rfl⟩

/-- C10: with `MZTAG_REQUIRED`, `Classify B_last_normal = InternalOnly`; a tag
classifies as `InternalOnly` exactly when `B_last_normal ≤ tag < B_last`; every
internal kind `scheme_rt_weak_array` .. `scheme_rt_unmarshal_info`
(`scheme_thread_hop_type` among them) classifies as `InternalOnly`, and no
identifier declared before `_scheme_last_normal_type_` does. -/
theorem C10_internal_only (tag : Int) :
    ∃ ts, Build (stypes true) = .ok ts ∧
      Classify ts ts.B_last_normal = .ok .InternalOnly ∧
      (Classify ts tag = .ok .InternalOnly ↔
        ((ts.B_last_normal : Int) ≤ tag ∧ tag < ts.B_last)) ∧
      (∀ e ∈ rtTypes, categoryOf true ts e.name = some (.ok .InternalOnly)) ∧
      Enumerator.mk scheme_thread_hop_type (some 187) ∈ rtTypes ∧
      categoryOf true ts scheme_thread_hop_type = some (.ok .InternalOnly) ∧
      (∀ n ∈ kindsBefore true _scheme_last_normal_type_,
        ∃ c, categoryOf true ts n = some (.ok c) ∧ c ≠ .InternalOnly) := by
  refine ⟨_, build_stypes_true, by decide!, ?_, by decide!, by decide!, by decide!, ?_⟩
  · simp only [Classify]
    split_ifs with a b c d
    all_goals simp
    all_goals omega
  · have h : ∀ n ∈ kindsBefore true _scheme_last_normal_type_,
        categoryOf true ⟨16, 26, 141, 208⟩ n = some (.ok .CompiledSyntaxForm) ∨
        categoryOf true ⟨16, 26, 141, 208⟩ n = some (.ok .RegisteredValueOrSlot) ∨
        categoryOf true ⟨16, 26, 141, 208⟩ n = some (.ok .RuntimeKind) := by decide!
    intro n hn
    rcases h n hn with h | h | h
    · exact ⟨_, h, by decide⟩
    · exact ⟨_, h, by decide⟩
    · exact ⟨_, h, by decide⟩

/-! ## The internal tier, lookup and stamping -/

theorem mem_enumValues {l : List Enumerator} {n : Nat} {p : Ident × Nat}
    (h : p ∈ enumValues l n) :
    ∃ k, ∃ hk : k < l.length, p = ((l.get ⟨k, hk⟩).name, n + k) := by
  induction l generalizing n with
  | nil => simp [enumValues] at h
  | cons e es ih =>
    simp only [enumValues, List.mem_cons] at h
    rcases h with h | h
    · exact ⟨0, by simp, by simp [h]⟩
    · obtain ⟨k, hk, hp⟩ := ih h
      refine ⟨k + 1, by simpa using hk, ?_⟩
      rw [hp]
      simp only [List.get, Prod.mk.injEq, true_and]
      omega

theorem position_of_tagIdOf {MZTAG_REQUIRED : Bool} {name : Ident} {t : Nat}
    (h : tagIdOf MZTAG_REQUIRED name = some t) :
    ∃ ht : t < (stypes MZTAG_REQUIRED).length,
      ((stypes MZTAG_REQUIRED).get ⟨t, ht⟩).name = name := by
  obtain ⟨k, hk, hp⟩ := mem_enumValues (mem_of_lookup h)
  simp only [Prod.mk.injEq, Nat.zero_add] at hp
  obtain ⟨h1, h2⟩ := hp
  subst h2
  exact ⟨hk, h1.symm⟩

/-- C11: the internal tier is a strict append: the catalog with `MZTAG_REQUIRED`
is the catalog without it with the `#ifdef` block put in front of
`_scheme_last_type_`; `B_values`, `B_compiled_values` and `B_last_normal` are the
same in both configurations; below `B_last_normal` the kind declared at a tag and
the result of `Classify` are the same in both; and an identifier declared only with
`MZTAG_REQUIRED` has a TagId of at least `B_last_normal`. -/
theorem C11_strict_append (tag : Int) :
    ∃ tsT tsF, Build (stypes true) = .ok tsT ∧ Build (stypes false) = .ok tsF ∧
      tsT.B_values = tsF.B_values ∧
      tsT.B_compiled_values = tsF.B_compiled_values ∧
      tsT.B_last_normal = tsF.B_last_normal ∧
      stypes true = (stypes false).take tsF.B_last_normal ++ mztagRequiredBlock
        ++ (stypes false).drop tsF.B_last_normal ∧
      (∀ t : Nat, t < tsT.B_last_normal →
        kindAt true t = kindAt false t ∧ (kindAt true t).isSome = true) ∧
      (tag < tsT.B_last_normal → Classify tsT tag = Classify tsF tag) ∧
      (∀ (name : Ident) (t : Nat), tagIdOf true name = some t →
        tagIdOf false name = none → tsT.B_last_normal ≤ t) := by
  refine ⟨_, _, build_stypes_true, build_stypes_false, rfl, rfl, rfl, by decide!, ?_, ?_, ?_⟩
  · have h : ∀ t : Nat, t < 141 →
        kindAt true t = kindAt false t ∧ (kindAt true t).isSome = true := by decide!
    exact h
  · intro h
    simp only [Classify]
    simp only at h
    split_ifs <;> first | rfl | omega
  · intro name t ht hf
    obtain ⟨hlen, hname⟩ := position_of_tagIdOf ht
    have h : ∀ (k : Nat) (hk : k < (stypes true).length), k < 141 →
        tagIdOf false ((stypes true).get ⟨k, hk⟩).name = some k := by decide!
    by_contra hlt
    have := h t hlen (by simpa using hlt)
    rw [hname, hf] at this
    cases this

/-- C12: with `MZTAG_REQUIRED`, `B_last` is 208, the value of `_scheme_last_type_`,
and `Lookup 9999` fails with `UnknownTag`; in either configuration `Lookup` fails
with `UnknownTag` exactly for the tags outside `[0, B_last)` and yields the entry of
the tag for every tag inside. -/
theorem C12_lookup_unknown_tag {Entry : Type} (entry : Nat → Entry)
    (MZTAG_REQUIRED : Bool) (tag : Int) :
    (∃ ts, Build (stypes true) = .ok ts ∧ ts.B_last = 208 ∧
      tagIdOf true _scheme_last_type_ = some 208 ∧
      Lookup ⟨ts, entry⟩ 9999 = .error .UnknownTag) ∧
    (∃ ts, Build (stypes MZTAG_REQUIRED) = .ok ts ∧
      (Lookup ⟨ts, entry⟩ tag = .error .UnknownTag ↔ (tag < 0 ∨ (ts.B_last : Int) ≤ tag)) ∧
      (Lookup ⟨ts, entry⟩ tag = .ok (entry tag.toNat) ↔ (0 ≤ tag ∧ tag < ts.B_last)) ∧
      ((∃ e, Lookup ⟨ts, entry⟩ tag = .ok e) ↔ (0 ≤ tag ∧ tag < ts.B_last))) := by
  have key : ∀ ts : TagSpace,
      (Lookup ⟨ts, entry⟩ tag = .error .UnknownTag ↔ (tag < 0 ∨ (ts.B_last : Int) ≤ tag)) ∧
      (Lookup ⟨ts, entry⟩ tag = .ok (entry tag.toNat) ↔ (0 ≤ tag ∧ tag < ts.B_last)) ∧
      ((∃ e, Lookup ⟨ts, entry⟩ tag = .ok e) ↔ (0 ≤ tag ∧ tag < ts.B_last)) := by
    intro ts
    simp only [Lookup]
    split_ifs with h
    · refine ⟨?_, ?_, ?_⟩
      · constructor
        · intro h'; cases h'
        · intro h'; omega
      · exact ⟨fun _ => h, fun _ => rfl⟩
      · exact ⟨fun _ => h, fun _ => ⟨_, rfl⟩⟩
    · refine ⟨?_, ?_, ?_⟩
      · constructor
        · intro _; omega
        · intro _; rfl
      · constructor
        · intro h'; cases h'
        · intro h'; exact absurd h' h
      · constructor
        · rintro ⟨e, h'⟩; cases h'
        · intro h'; exact absurd h' h
  refine ⟨⟨_, build_stypes_true, rfl, by decide!, ?_⟩, ?_⟩
  · simp [Lookup]
  · cases MZTAG_REQUIRED
    · exact ⟨_, build_stypes_false, key _⟩
    · exact ⟨_, build_stypes_true, key _⟩

/-- C13: in either configuration no real kind (an enumerator other than the four
boundary markers) has a TagId equal to `B_values`, `B_compiled_values`,
`B_last_normal` or `B_last`; these four values are those of `_scheme_values_types_`,
`_scheme_compiled_values_types_`, the position after `scheme_delay_syntax_type` and
`_scheme_last_type_`. -/
theorem C13_sentinel_not_a_kind (MZTAG_REQUIRED : Bool) (name : Ident) (t : Nat)
    (hreal : isRealKind name = true) (ht : tagIdOf MZTAG_REQUIRED name = some t) :
    ∃ ts, Build (stypes MZTAG_REQUIRED) = .ok ts ∧
      tagIdOf MZTAG_REQUIRED _scheme_values_types_ = some ts.B_values ∧
      tagIdOf MZTAG_REQUIRED _scheme_compiled_values_types_ = some ts.B_compiled_values ∧
      (tagIdOf MZTAG_REQUIRED scheme_delay_syntax_type).map (· + 1)
        = some ts.B_last_normal ∧
      tagIdOf MZTAG_REQUIRED _scheme_last_type_ = some ts.B_last ∧
      t ≠ ts.B_values ∧ t ≠ ts.B_compiled_values ∧
      t ≠ ts.B_last_normal ∧ t ≠ ts.B_last := by
  obtain ⟨hlen, hname⟩ := position_of_tagIdOf ht
  cases MZTAG_REQUIRED
  · have h : ∀ (k : Nat) (hk : k < (stypes false).length),
        isRealKind ((stypes false).get ⟨k, hk⟩).name = true →
          k ≠ 16 ∧ k ≠ 26 ∧ k ≠ 141 ∧ k ≠ 141 := by decide!
    exact ⟨_, build_stypes_false, by decide!, by decide!, by decide!, by decide!,
      h t hlen (hname ▸ hreal)⟩
  · have h : ∀ (k : Nat) (hk : k < (stypes true).length),
        isRealKind ((stypes true).get ⟨k, hk⟩).name = true →
          k ≠ 16 ∧ k ≠ 26 ∧ k ≠ 141 ∧ k ≠ 208 := by decide!
    exact ⟨_, build_stypes_true, by decide!, by decide!, by decide!, by decide!,
      h t hlen (hname ▸ hreal)⟩

/-- C13, instance: `scheme_char_string_type` is a real kind with TagId 44, which is
none of the sentinel values 16, 26, 141, 208 of the catalog with `MZTAG_REQUIRED`. -/
theorem C13_sentinel_not_a_kind_witness :
    (isRealKind scheme_char_string_type = true ∧
      tagIdOf true scheme_char_string_type = some 44) ∧
    ∃ ts, Build (stypes true) = .ok ts ∧
      tagIdOf true _scheme_values_types_ = some ts.B_values ∧
      tagIdOf true _scheme_compiled_values_types_ = some ts.B_compiled_values ∧
      (tagIdOf true scheme_delay_syntax_type).map (· + 1) = some ts.B_last_normal ∧
      tagIdOf true _scheme_last_type_ = some ts.B_last ∧
      44 ≠ ts.B_values ∧ 44 ≠ ts.B_compiled_values ∧
      44 ≠ ts.B_last_normal ∧ 44 ≠ ts.B_last :=
  ⟨by decide!, C13_sentinel_not_a_kind true scheme_char_string_type 44 (by decide!)
    (by decide!)⟩

/-- C14: for the TagSpace of stypes.h (either configuration) and every integer
tag, `Stamp` succeeds exactly when `0 ≤ tag < B_last` and otherwise fails with
`InvalidKind`; a header it returns reads back the tag; `IsValid` is true exactly
when `Stamp` succeeds, which is exactly when `Classify` succeeds; the TagId of every
real kind declared in this configuration is valid; and without `MZTAG_REQUIRED` the
tags 141 .. 207 are invalid. -/
theorem C14_stamp_valid (MZTAG_REQUIRED : Bool) (tag : Int) :
    ∃ ts, Build (stypes MZTAG_REQUIRED) = .ok ts ∧
      ((∃ h, Stamp ts tag = .ok h) ↔ (0 ≤ tag ∧ tag < ts.B_last)) ∧
      (Stamp ts tag = .error .InvalidKind ↔ ¬ (0 ≤ tag ∧ tag < ts.B_last)) ∧
      (∀ h, Stamp ts tag = .ok h → h.Tag = tag) ∧
      (IsValid ts tag = true ↔ ∃ h, Stamp ts tag = .ok h) ∧
      (IsValid ts tag = true ↔ ∃ c, Classify ts tag = .ok c) ∧
      (∀ e ∈ stypes MZTAG_REQUIRED, isRealKind e.name = true →
        ∃ t : Nat, tagIdOf MZTAG_REQUIRED e.name = some t ∧ IsValid ts t = true) ∧
      (MZTAG_REQUIRED = false → 141 ≤ tag → tag ≤ 207 → IsValid ts tag = false) := by
  have key : ∀ ts : TagSpace,
      ((∃ h, Stamp ts tag = .ok h) ↔ (0 ≤ tag ∧ tag < ts.B_last)) ∧
      (Stamp ts tag = .error .InvalidKind ↔ ¬ (0 ≤ tag ∧ tag < ts.B_last)) ∧
      (∀ h, Stamp ts tag = .ok h → h.Tag = tag) ∧
      (IsValid ts tag = true ↔ ∃ h, Stamp ts tag = .ok h) := by
    intro ts
    by_cases h : 0 ≤ tag ∧ tag < (ts.B_last : Int)
    · refine ⟨?_, ?_, ?_, ?_⟩
      · simp [Stamp, h]
      · simp [Stamp, h]
      · intro hd hh
        simp only [Stamp, h, and_self, if_true, Except.ok.injEq] at hh
        rw [← hh]
        rfl
      · simp [Stamp, IsValid, h]
    · refine ⟨?_, ?_, ?_, ?_⟩
      · simp [Stamp, h]
      · simp [Stamp, h]
      · intro hd hh
        simp [Stamp, h] at hh
      · simp [Stamp, IsValid, h]
  have valid : ∀ (M : Bool) (ts : TagSpace), Build (stypes M) = .ok ts →
      ∀ k : Nat, k + 1 < (stypes M).length → IsValid ts k = true := by
    intro M ts hb k hk
    cases M
    · rw [build_stypes_false] at hb
      cases hb
      have hl : (stypes false).length = 142 := by decide!
      simp only [IsValid, decide_eq_true_eq]
      omega
    · rw [build_stypes_true] at hb
      cases hb
      have hl : (stypes true).length = 209 := by decide!
      simp only [IsValid, decide_eq_true_eq]
      omega
  have notLast : ∀ (M : Bool) (k : Nat) (hk : k < (stypes M).length),
      isRealKind ((stypes M).get ⟨k, hk⟩).name = true → k + 1 < (stypes M).length := by
    intro M
    cases M <;> decide!
  have kinds : ∀ (M : Bool) (ts : TagSpace), Build (stypes M) = .ok ts →
      ∀ e ∈ stypes M, isRealKind e.name = true →
        ∃ t : Nat, tagIdOf M e.name = some t ∧ IsValid ts t = true := by
    intro M ts hb e he hreal
    obtain ⟨⟨k, hk⟩, rfl⟩ := List.mem_iff_get.1 he
    exact ⟨k, tagIdOf_get M k hk, valid M ts hb k (notLast M k hk hreal)⟩
  cases MZTAG_REQUIRED
  · obtain ⟨k1, k2, k3, k4⟩ := key ⟨16, 26, 141, 141⟩
    refine ⟨_, build_stypes_false, k1, k2, k3, k4, ?_, kinds false _ build_stypes_false, ?_⟩
    · simp only [IsValid, Classify, decide_eq_true_eq]
      split_ifs <;> simp <;> omega
    · intro _ h1 h2
      simp only [IsValid, decide_eq_false_iff_not]
      omega
  · obtain ⟨k1, k2, k3, k4⟩ := key ⟨16, 26, 141, 208⟩
    refine ⟨_, build_stypes_true, k1, k2, k3, k4, ?_, kinds true _ build_stypes_true, ?_⟩
    · simp only [IsValid, Classify, decide_eq_true_eq]
      split_ifs <;> simp <;> omega
    · intro h
      cases h

/-- C15: `Classify` is monotone on the TagSpace of stypes.h (either configuration):
for tags `t1 ≤ t2` classified as `c1` and `c2`, `c1` does not come after `c2` in the
order `CompiledSyntaxForm < RegisteredValueOrSlot < RuntimeKind < InternalOnly`; the
tags of one category form an interval (a tag between two tags of a category is in
that category); and a declaration with the larger TagId never falls into an earlier
category. -/
theorem C15_classify_monotone (MZTAG_REQUIRED : Bool) (ts : TagSpace)
    (hb : Build (stypes MZTAG_REQUIRED) = .ok ts) (t1 t2 : Int) (c1 c2 : Category)
    (h12 : t1 ≤ t2) (h1 : Classify ts t1 = .ok c1) (h2 : Classify ts t2 = .ok c2) :
    c1.rank ≤ c2.rank ∧
    (∀ t : Int, t1 ≤ t → t ≤ t2 → c1 = c2 → Classify ts t = .ok c1) ∧
    (∀ (a b : Ident) (ta tb : Nat),
      tagIdOf MZTAG_REQUIRED a = some ta → tagIdOf MZTAG_REQUIRED b = some tb →
      (ta : Int) = t1 → (tb : Int) = t2 →
      ∃ ca cb, categoryOf MZTAG_REQUIRED ts a = some (.ok ca) ∧
        categoryOf MZTAG_REQUIRED ts b = some (.ok cb) ∧ ca.rank ≤ cb.rank) := by
  have hord : ts.B_values < ts.B_compiled_values ∧
      ts.B_compiled_values < ts.B_last_normal ∧ ts.B_last_normal ≤ ts.B_last := by
    cases MZTAG_REQUIRED
    · rw [build_stypes_false] at hb; cases hb; decide
    · rw [build_stypes_true] at hb; cases hb; decide
  obtain ⟨o1, o2, o3⟩ := hord
  have hrank : c1.rank ≤ c2.rank := by
    simp only [Classify] at h1 h2
    split_ifs at h1 <;> split_ifs at h2 <;> cases h1 <;> cases h2 <;>
      simp only [Category.rank] <;> omega
  refine ⟨hrank, ?_, ?_⟩
  · intro t ht1 ht2 hc
    subst hc
    simp only [Classify] at h1 h2 ⊢
    split_ifs at h1 <;> split_ifs at h2 <;> cases h1 <;> first
      | (cases h2; done)
      | (split_ifs <;> first | rfl | omega)
  · intro a b ta tb ha hbt hta htb
    refine ⟨c1, c2, ?_, ?_, hrank⟩
    · simp only [categoryOf, ha, Option.map_some', hta, h1]
    · simp only [categoryOf, hbt, Option.map_some', htb, h2]

/-- C15, instance: in the catalog with `MZTAG_REQUIRED`, tags 4 and 44 classify as
`CompiledSyntaxForm` and `RuntimeKind`, in that order of rank. -/
theorem C15_classify_monotone_witness :
    (Build (stypes true) = .ok ⟨16, 26, 141, 208⟩ ∧ (4 : Int) ≤ 44 ∧
      Classify ⟨16, 26, 141, 208⟩ 4 = .ok .CompiledSyntaxForm ∧
      Classify ⟨16, 26, 141, 208⟩ 44 = .ok .RuntimeKind) ∧
    Category.CompiledSyntaxForm.rank ≤ Category.RuntimeKind.rank :=
  ⟨⟨build_stypes_true, by decide, by decide, by decide⟩,
    (C15_classify_monotone true ⟨16, 26, 141, 208⟩ build_stypes_true 4 44
      .CompiledSyntaxForm .RuntimeKind (by decide) (by decide) (by decide)).1⟩

/-- C16, as stated, fails without `MZTAG_REQUIRED`: there `B_last_normal`, the
position after `scheme_delay_syntax_type`, is 141, which is `B_last`, the value of
`_scheme_last_type_`; it is not a valid TagId and `Classify` fails on it with
`UnknownTag`, so not every sentinel other than `B_last` occupies a valid TagId that
is classified. -/
theorem C16_last_normal_counterexample :
    (∃ ts, Build (stypes false) = .ok ts ∧
      (tagIdOf false scheme_delay_syntax_type).map (· + 1) = some ts.B_last_normal ∧
      ts.B_last_normal = 141 ∧
      ts.B_last_normal = ts.B_last ∧
      tagIdOf false _scheme_last_normal_type_ = none ∧
      kindAt false ts.B_last_normal = some _scheme_last_type_ ∧
      IsValid ts ts.B_last_normal = false ∧
      Classify ts ts.B_last_normal = .error .UnknownTag) ∧
    ¬ (∀ M : Bool, ∃ ts, Build (stypes M) = .ok ts ∧
        IsValid ts ts.B_values = true ∧
        IsValid ts ts.B_compiled_values = true ∧
        IsValid ts ts.B_last_normal = true ∧
        (∃ c, Classify ts ts.B_values = .ok c) ∧
        (∃ c, Classify ts ts.B_compiled_values = .ok c) ∧
        (∃ c, Classify ts ts.B_last_normal = .ok c)) := by
  refine ⟨⟨_, build_stypes_false, by decide!⟩, ?_⟩
  intro h
  obtain ⟨ts, hb, _, _, hv, _⟩ := h false
  rw [build_stypes_false] at hb
  cases hb
  exact absurd hv (by decide)

/-- C16, amended: `B_values` and `B_compiled_values` in both configurations, and
`B_last_normal` with `MZTAG_REQUIRED`, are valid TagIds, each the value of its own
boundary marker, classified into the category whose range starts there
(`Classify 16 = RegisteredValueOrSlot`, `Classify 26 = RuntimeKind`,
`Classify 141 = InternalOnly`), the tag before being in the previous category;
without `MZTAG_REQUIRED`, `B_last_normal` is `B_last`, the value of
`_scheme_last_type_`, and is not a valid TagId.  The real kinds number 16, 9, 114
and, with `MZTAG_REQUIRED`, 66 per category, the last three one less than the width
of the tag range; there are 205 real kinds among 209 enumerators with
`MZTAG_REQUIRED` and 139 real kinds without. -/
theorem C16_declared_sentinels_in_ranges (MZTAG_REQUIRED : Bool) :
    ∃ ts, Build (stypes MZTAG_REQUIRED) = .ok ts ∧
      tagIdOf MZTAG_REQUIRED _scheme_values_types_ = some ts.B_values ∧
      kindAt MZTAG_REQUIRED ts.B_values = some _scheme_values_types_ ∧
      ts.B_values = 16 ∧
      IsValid ts ts.B_values = true ∧
      Classify ts 16 = .ok .RegisteredValueOrSlot ∧
      Classify ts ts.B_values = .ok .RegisteredValueOrSlot ∧
      Classify ts ((ts.B_values : Int) - 1) = .ok .CompiledSyntaxForm ∧
      tagIdOf MZTAG_REQUIRED _scheme_compiled_values_types_ = some ts.B_compiled_values ∧
      kindAt MZTAG_REQUIRED ts.B_compiled_values = some _scheme_compiled_values_types_ ∧
      ts.B_compiled_values = 26 ∧
      IsValid ts ts.B_compiled_values = true ∧
      Classify ts 26 = .ok .RuntimeKind ∧
      Classify ts ts.B_compiled_values = .ok .RuntimeKind ∧
      Classify ts ((ts.B_compiled_values : Int) - 1) = .ok .RegisteredValueOrSlot ∧
      (tagIdOf MZTAG_REQUIRED scheme_delay_syntax_type).map (· + 1)
        = some ts.B_last_normal ∧
      ts.B_last_normal = 141 ∧
      tagIdOf MZTAG_REQUIRED _scheme_last_normal_type_
        = (if MZTAG_REQUIRED then some ts.B_last_normal else none) ∧
      kindAt MZTAG_REQUIRED ts.B_last_normal
        = some (if MZTAG_REQUIRED then _scheme_last_normal_type_ else _scheme_last_type_) ∧
      IsValid ts ts.B_last_normal = MZTAG_REQUIRED ∧
      Classify ts ts.B_last_normal
        = (if MZTAG_REQUIRED then .ok .InternalOnly else .error .UnknownTag) ∧
      Classify ts ((ts.B_last_normal : Int) - 1) = .ok .RuntimeKind ∧
      (realKindsIn MZTAG_REQUIRED ts .CompiledSyntaxForm).length = 16 ∧
      (realKindsIn MZTAG_REQUIRED ts .RegisteredValueOrSlot).length = 9 ∧
      (realKindsIn MZTAG_REQUIRED ts .RuntimeKind).length = 114 ∧
      (realKindsIn MZTAG_REQUIRED ts .InternalOnly).length
        = (if MZTAG_REQUIRED then 66 else 0) ∧
      ts.B_values - 0 = 16 ∧
      ts.B_compiled_values - ts.B_values = 9 + 1 ∧
      ts.B_last_normal - ts.B_compiled_values = 114 + 1 ∧
      ts.B_last - ts.B_last_normal = (if MZTAG_REQUIRED then 66 + 1 else 0) ∧
      ((stypes true).filter (fun e => isRealKind e.name)).length = 205 ∧
      (stypes true).length = 209 ∧
      ((stypes false).filter (fun e => isRealKind e.name)).length = 139 := by
  cases MZTAG_REQUIRED
  · exact ⟨_, build_stypes_false, by decide!⟩
  · exact ⟨_, build_stypes_true, by decide!⟩

/-- C17: the eight kinds under "procedure types" are exactly the identifiers
declared from `scheme_prim_type` (27, the value right after `B_compiled_values`)
through `scheme_native_closure_type` (34); a declared identifier is one of them
exactly when its TagId lies in `[27, 34]`, and every tag in that range is one of
them; all classify as `RuntimeKind`; `scheme_structure_type` is 35, the first tag
after the range. -/
theorem C17_procedure_range (MZTAG_REQUIRED : Bool) (name : Ident) (t : Nat)
    (ht : tagIdOf MZTAG_REQUIRED name = some t) :
    ∃ ts, Build (stypes MZTAG_REQUIRED) = .ok ts ∧
      (name ∈ procedureTypes.map Enumerator.name ↔ (27 ≤ t ∧ t ≤ 34)) ∧
      procedureTypes.length = 8 ∧
      declaredFromThrough MZTAG_REQUIRED scheme_prim_type scheme_native_closure_type
        = procedureTypes.map Enumerator.name ∧
      tagIdOf MZTAG_REQUIRED scheme_prim_type = some 27 ∧
      tagIdOf MZTAG_REQUIRED scheme_native_closure_type = some 34 ∧
      ts.B_compiled_values + 1 = 27 ∧
      (List.range' 27 8).map (kindAt MZTAG_REQUIRED)
        = procedureTypes.map (fun e => some e.name) ∧
      (∀ e ∈ procedureTypes,
        categoryOf MZTAG_REQUIRED ts e.name = some (.ok .RuntimeKind)) ∧
      tagIdOf MZTAG_REQUIRED scheme_structure_type = some 35 ∧
      kindAt MZTAG_REQUIRED 35 = some scheme_structure_type ∧
      scheme_structure_type ∉ procedureTypes.map Enumerator.name := by
  obtain ⟨hlen, hname⟩ := position_of_tagIdOf ht
  have h : ∀ (M : Bool) (k : Nat) (hk : k < (stypes M).length),
      (((stypes M).get ⟨k, hk⟩).name ∈ procedureTypes.map Enumerator.name
        ↔ (27 ≤ k ∧ k ≤ 34)) := by
    intro M
    cases M <;> decide!
  have hiff := h MZTAG_REQUIRED t hlen
  rw [hname] at hiff
  cases MZTAG_REQUIRED
  · exact ⟨_, build_stypes_false, hiff, by decide!⟩
  · exact ⟨_, build_stypes_true, hiff, by decide!⟩

/-- C17, instance: `scheme_closure_type` has TagId 29 with `MZTAG_REQUIRED`; it is
a procedure type and 29 lies in `[27, 34]`. -/
theorem C17_procedure_range_witness :
    tagIdOf true scheme_closure_type = some 29 ∧
    (scheme_closure_type ∈ procedureTypes.map Enumerator.name ↔ (27 ≤ 29 ∧ 29 ≤ 34)) := by
  refine ⟨by decide!, ?_⟩
  obtain ⟨ts, _, h, _⟩ := C17_procedure_range true scheme_closure_type 29 (by decide!)
  exact h
end Stypes
